import Mathlib

/-!
Verification of the Bunq-Jupyter gateway sources (`api_proxy.py`,
`api_proxy_secure.py`) against their specification.  The Python code is
shallowly embedded: timestamps are rationals, strings are Lean strings
(searched as character lists), network and filesystem effects are passed
in explicitly, and `random` calls are driven by an oracle argument.
-/

/-! ## Rate limiter (`api_proxy_secure.py`, class `RateLimiter`) -/

/-- Configuration of `RateLimiter.__init__`: `max_requests` and
`window_seconds`. -/
structure RLConfig where
  maxRequests : Nat
  windowSeconds : ℚ
deriving Repr

/-- The "Clean old requests" step of `RateLimiter.is_allowed`:
`[req_time for req_time in self.requests[client_id] if req_time > window_start]`
with `window_start = now - self.window_seconds`. -/
def kept (cfg : RLConfig) (ts : List ℚ) (now : ℚ) : List ℚ :=
  ts.filter (fun t => decide (now - cfg.windowSeconds < t))

/-- `RateLimiter.is_allowed` for a single client: given the stored
timestamp list `self.requests[client_id]` and the current time `now`,
it cleans old requests (keeping the `kept` list), denies when the
remaining count is `>= max_requests`, and otherwise records `now` and
allows.  Returns the boolean result together with the new stored list. -/
def is_allowed (cfg : RLConfig) (ts : List ℚ) (now : ℚ) : Bool × List ℚ :=
  if cfg.maxRequests ≤ (kept cfg ts now).length then (false, kept cfg ts now)
  else (true, kept cfg ts now ++ [now])

/-- The module-level limiter: `RateLimiter(max_requests=30, window_seconds=60)`. -/
def rate_limiter : RLConfig := ⟨30, 60⟩

/-- `self.requests` is a `defaultdict(list)`: a total map from client id
to timestamp list, defaulting to `[]`. -/
def RequestMap : Type := String → List ℚ

/-- `is_allowed` acting on the whole `self.requests` map: it reads and
writes only the entry of `client_id`. -/
def is_allowed_map (cfg : RLConfig) (st : RequestMap) (client_id : String)
    (now : ℚ) : Bool × RequestMap :=
  let r := is_allowed cfg (st client_id) now
  (r.1, Function.update st client_id r.2)

/-- Stored timestamp list after a sequence of `is_allowed` calls at the
given times (all for one client). -/
def runState (cfg : RLConfig) (ts : List ℚ) : List ℚ → List ℚ
  | [] => ts
  | now :: rest => runState cfg (is_allowed cfg ts now).2 rest

/-- The boolean results of a sequence of `is_allowed` calls. -/
def results (cfg : RLConfig) (ts : List ℚ) : List ℚ → List Bool
  | [] => []
  | now :: rest =>
      (is_allowed cfg ts now).1 :: results cfg (is_allowed cfg ts now).2 rest

/-- The times of the calls that were allowed (returned `true`) in a
sequence of `is_allowed` calls. -/
def allowedTimes (cfg : RLConfig) (ts : List ℚ) : List ℚ → List ℚ
  | [] => []
  | now :: rest =>
      (if (is_allowed cfg ts now).1 then [now] else []) ++
        allowedTimes cfg (is_allowed cfg ts now).2 rest

example : results rate_limiter [] [0, 1, 2] = [true, true, true] := by
  norm_num [results, is_allowed, kept, rate_limiter]

example : (is_allowed rate_limiter (List.replicate 30 (0 : ℚ)) 1).1 = false := by
  norm_num [is_allowed, kept, rate_limiter]

/-! ### Rate limiter lemmas -/

theorem length_kept_le (cfg : RLConfig) (ts : List ℚ) (now : ℚ) :
    (kept cfg ts now).length ≤ ts.length :=
  List.length_filter_le _ ts

theorem is_allowed_eq_denied {cfg : RLConfig} {ts : List ℚ} {now : ℚ}
    (h : cfg.maxRequests ≤ (kept cfg ts now).length) :
    is_allowed cfg ts now = (false, kept cfg ts now) := by
  unfold is_allowed; rw [if_pos h]

theorem is_allowed_eq_allowed {cfg : RLConfig} {ts : List ℚ} {now : ℚ}
    (h : (kept cfg ts now).length < cfg.maxRequests) :
    is_allowed cfg ts now = (true, kept cfg ts now ++ [now]) := by
  unfold is_allowed; rw [if_neg (by omega)]

theorem is_allowed_denied_state (cfg : RLConfig) (ts : List ℚ) (now : ℚ)
    (h : (is_allowed cfg ts now).1 = false) :
    (is_allowed cfg ts now).2 = kept cfg ts now := by
  by_cases hc : cfg.maxRequests ≤ (kept cfg ts now).length
  · rw [is_allowed_eq_denied hc]
  · rw [is_allowed_eq_allowed (by omega)] at h ⊢
    simp at h

theorem length_is_allowed_state_le (cfg : RLConfig) (ts : List ℚ) (now : ℚ)
    (h : ts.length ≤ cfg.maxRequests) :
    (is_allowed cfg ts now).2.length ≤ cfg.maxRequests := by
  by_cases hc : cfg.maxRequests ≤ (kept cfg ts now).length
  · rw [is_allowed_eq_denied hc]
    exact le_trans (length_kept_le cfg ts now) h
  · rw [is_allowed_eq_allowed (by omega)]
    simp only [List.length_append, List.length_singleton]
    omega

theorem length_runState_le (cfg : RLConfig) :
    ∀ (times : List ℚ) (ts : List ℚ), ts.length ≤ cfg.maxRequests →
      (runState cfg ts times).length ≤ cfg.maxRequests := by
  intro times
  induction times with
  | nil => intro ts h; simpa [runState] using h
  | cons now rest ih =>
      intro ts h
      rw [runState]
      exact ih _ (length_is_allowed_state_le cfg ts now h)

theorem results_replicate_true (cfg : RLConfig) :
    ∀ (times : List ℚ) (ts : List ℚ),
      ts.length + times.length ≤ cfg.maxRequests →
      results cfg ts times = List.replicate times.length true := by
  intro times
  induction times with
  | nil => intro ts _; simp [results]
  | cons now rest ih =>
      intro ts h
      simp only [List.length_cons] at h
      have hkept : (kept cfg ts now).length < cfg.maxRequests := by
        have := length_kept_le cfg ts now
        omega
      rw [results, is_allowed_eq_allowed hkept]
      simp only [List.length_cons, List.replicate_succ]
      congr 1
      apply ih
      have := length_kept_le cfg ts now
      simp only [List.length_append, List.length_singleton]
      omega

theorem countP_kept (cfg : RLConfig) (ts : List ℚ) (now B : ℚ)
    (h : now ≤ B + cfg.windowSeconds) :
    (kept cfg ts now).countP (fun t => decide (B < t)) =
      ts.countP (fun t => decide (B < t)) := by
  unfold kept
  rw [List.countP_filter]
  apply List.countP_congr
  intro x _
  simp only [Bool.and_eq_true, decide_eq_true_eq]
  constructor
  · rintro ⟨hB, _⟩; exact hB
  · intro hB; exact ⟨hB, by linarith⟩

/-- After any run of `is_allowed` calls all made at times `≤ B + window`,
the timestamps above `B` in the stored list are exactly the initial ones
above `B` plus the allowed call times above `B`: eviction only ever
removes timestamps `≤ B`. -/
theorem countP_runState (cfg : RLConfig) (B : ℚ) :
    ∀ (times ts : List ℚ),
      (∀ n ∈ times, n ≤ B + cfg.windowSeconds) →
      (runState cfg ts times).countP (fun t => decide (B < t)) =
        ts.countP (fun t => decide (B < t)) +
          (allowedTimes cfg ts times).countP (fun t => decide (B < t)) := by
  intro times
  induction times with
  | nil => intro ts _; simp [runState, allowedTimes]
  | cons now rest ih =>
      intro ts h
      have hnow : now ≤ B + cfg.windowSeconds := h now (by simp)
      have hrest : ∀ n ∈ rest, n ≤ B + cfg.windowSeconds := fun n hn =>
        h n (List.mem_cons_of_mem _ hn)
      rw [runState, allowedTimes]
      by_cases hc : cfg.maxRequests ≤ (kept cfg ts now).length
      · rw [is_allowed_eq_denied hc]
        simp only [Bool.false_eq_true, if_false, List.nil_append]
        rw [ih _ hrest, countP_kept cfg ts now B hnow]
      · rw [is_allowed_eq_allowed (by omega)]
        simp only [List.singleton_append]
        rw [ih _ hrest]
        rw [List.countP_append, countP_kept cfg ts now B hnow]
        simp only [List.countP_cons, List.countP_nil]
        by_cases hB : B < now
        · simp [hB]; omega
        · simp [hB]

theorem mem_allowedTimes (cfg : RLConfig) :
    ∀ (times ts : List ℚ) (t : ℚ), t ∈ allowedTimes cfg ts times → t ∈ times := by
  intro times
  induction times with
  | nil => intro ts t ht; simp [allowedTimes] at ht
  | cons now rest ih =>
      intro ts t ht
      rw [allowedTimes] at ht
      rcases List.mem_append.mp ht with h1 | h2
      · by_cases hb : (is_allowed cfg ts now).1 <;> simp [hb] at h1
        simp [h1]
      · exact List.mem_cons_of_mem _ (ih _ _ h2)

theorem length_results (cfg : RLConfig) :
    ∀ (times ts : List ℚ), (results cfg ts times).length = times.length := by
  intro times
  induction times with
  | nil => intro ts; rfl
  | cons now rest ih => intro ts; simp [results, ih]

theorem runState_nil (cfg : RLConfig) (ts : List ℚ) : runState cfg ts [] = ts := rfl

/-- When nothing in the initial list nor among the earlier call times is
old enough to be evicted by any later call, the run only appends: the
final stored list is the initial list followed by the allowed times. -/
theorem runState_no_evict (cfg : RLConfig) :
    ∀ (times ts : List ℚ),
      (∀ x ∈ ts, ∀ n ∈ times, n - cfg.windowSeconds < x) →
      List.Pairwise (fun a b => b - cfg.windowSeconds < a) times →
      runState cfg ts times = ts ++ allowedTimes cfg ts times := by
  intro times
  induction times with
  | nil => intro ts _ _; simp [runState, allowedTimes]
  | cons now rest ih =>
      intro ts hts hp
      have hkept : kept cfg ts now = ts := by
        unfold kept
        apply List.filter_eq_self.mpr
        intro x hx
        exact decide_eq_true (hts x hx now (List.mem_cons_self _ _))
      rcases List.pairwise_cons.mp hp with ⟨hnow, hrest⟩
      rw [runState, allowedTimes]
      by_cases hc : cfg.maxRequests ≤ (kept cfg ts now).length
      · rw [is_allowed_eq_denied hc]
        simp only [Bool.false_eq_true, if_false, List.nil_append]
        rw [hkept] at *
        rw [ih ts (fun x hx n hn => hts x hx n (List.mem_cons_of_mem _ hn)) hrest]
      · rw [is_allowed_eq_allowed (by omega)]
        simp only [List.singleton_append]
        rw [hkept] at *
        rw [ih (ts ++ [now]) ?_ hrest]
        · simp
        · intro x hx n hn
          rcases List.mem_append.mp hx with h1 | h2
          · exact hts x h1 n (List.mem_cons_of_mem _ hn)
          · rw [List.mem_singleton] at h2
            subst h2
            exact hnow n hn

theorem allowedTimes_append (cfg : RLConfig) :
    ∀ (l1 l2 ts : List ℚ),
      allowedTimes cfg ts (l1 ++ l2) =
        allowedTimes cfg ts l1 ++ allowedTimes cfg (runState cfg ts l1) l2 := by
  intro l1
  induction l1 with
  | nil => intro l2 ts; simp [allowedTimes, runState]
  | cons now rest ih =>
      intro l2 ts
      rw [List.cons_append, allowedTimes, allowedTimes, runState, ih]
      simp [List.append_assoc]

theorem length_allowedTimes (cfg : RLConfig) :
    ∀ (times ts : List ℚ),
      (allowedTimes cfg ts times).length = (results cfg ts times).count true := by
  intro times
  induction times with
  | nil => intro ts; rfl
  | cons now rest ih =>
      intro ts
      rw [allowedTimes, results]
      by_cases hb : (is_allowed cfg ts now).1
      · rw [hb]
        simp [List.count_cons, ih]
      · rw [Bool.not_eq_true] at hb
        rw [hb]
        simp [List.count_cons, ih]

/-- C1: for the limiter configured with `max_requests=30`,
`window_seconds=60` and any one client identity (whose stored window is
a timestamp list), (1) any sequence of at most 30 calls within 60
seconds, starting from an empty window, all return `true`; (2) a 31st
call within the same 60-second window returns `false`; (3) once 60
seconds have elapsed since the first call, a new call returns `true`
again; (4) over any monotone sequence of calls, at most 30 calls whose
time lies in any trailing 60-second interval `(T-60, T]` are allowed. -/
theorem C1_rate_limiter_sliding_window :
    (∀ (times : List ℚ) (t0 : ℚ),
        List.Chain' (· ≤ ·) times →
        (∀ t ∈ times, t0 ≤ t ∧ t < t0 + 60) →
        times.length ≤ 30 →
        results rate_limiter [] times = List.replicate times.length true) ∧
    (∀ (l : List ℚ) (t0 t31 : ℚ),
        List.Chain' (· ≤ ·) (l ++ [t31]) →
        (∀ t ∈ l ++ [t31], t0 ≤ t ∧ t < t0 + 60) →
        l.length = 30 →
        (is_allowed rate_limiter (runState rate_limiter [] l) t31).1 = false) ∧
    (∀ (times : List ℚ) (t0 tnew : ℚ),
        times.head? = some t0 →
        List.Chain' (· ≤ ·) times →
        (∀ t ∈ times, t < t0 + 60) →
        t0 + 60 ≤ tnew →
        (is_allowed rate_limiter (runState rate_limiter [] times) tnew).1 = true) ∧
    (∀ (times : List ℚ) (T : ℚ),
        List.Chain' (· ≤ ·) times →
        (allowedTimes rate_limiter [] times).countP
          (fun t => decide (T - 60 < t ∧ t ≤ T)) ≤ 30) := by
  have hw : rate_limiter.windowSeconds = 60 := rfl
  have hm : rate_limiter.maxRequests = 30 := rfl
  refine ⟨?_, ?_, ?_, ?_⟩
  · -- (1) at most 30 calls from an empty window are all allowed
    intro times t0 _ _ hlen
    apply results_replicate_true
    simpa [hm] using hlen
  · -- (2) the 31st call inside the window is denied
    intro l t0 t31 hchain hwin hlen
    have hpair := (List.chain'_iff_pairwise).mp hchain
    have hmemle : ∀ n ∈ l, n ≤ t31 := by
      intro n hn
      exact (List.pairwise_append.mp hpair).2.2 n hn t31 (List.mem_singleton_self _)
    have ht31 : t0 ≤ t31 ∧ t31 < t0 + 60 :=
      hwin t31 (List.mem_append.mpr (Or.inr (List.mem_singleton_self _)))
    have hE := countP_runState rate_limiter (t31 - 60) l [] ?_
    · have hall : results rate_limiter [] l = List.replicate l.length true := by
        apply results_replicate_true
        simp [hm, hlen]
      have hAT : (allowedTimes rate_limiter [] l).length = 30 := by
        rw [length_allowedTimes, hall, List.count_replicate_self, hlen]
      have hATc : (allowedTimes rate_limiter [] l).countP
          (fun t => decide (t31 - 60 < t)) = 30 := by
        rw [List.countP_eq_length.mpr, hAT]
        intro a ha
        have hal : a ∈ l := mem_allowedTimes rate_limiter l [] a ha
        have := (hwin a (List.mem_append.mpr (Or.inl hal))).1
        simp only [decide_eq_true_eq]
        linarith [ht31.2]
      have hstate : (runState rate_limiter [] l).countP
          (fun t => decide (t31 - 60 < t)) = 30 := by
        rw [hE, hATc]
        simp
      have hkeptlen : (kept rate_limiter (runState rate_limiter [] l) t31).length = 30 := by
        unfold kept
        rw [← List.countP_eq_length_filter]
        rw [hw]
        exact hstate
      rw [is_allowed_eq_denied (by rw [hkeptlen, hm])]
    · intro n hn
      rw [hw]
      have := hmemle n hn
      linarith
  · -- (3) after the window has fully elapsed a new call is allowed
    intro times t0 tnew hhead hchain hlt hnew
    obtain ⟨rest, rfl⟩ : ∃ rest, times = t0 :: rest := by
      cases times with
      | nil => simp at hhead
      | cons a r =>
          rw [List.head?_cons, Option.some.injEq] at hhead
          exact ⟨r, by rw [hhead]⟩
    have hpair := (List.chain'_iff_pairwise).mp hchain
    have hmem0 : ∀ t ∈ t0 :: rest, t0 ≤ t := by
      intro t ht
      rcases List.mem_cons.mp ht with rfl | hr
      · exact le_refl t
      · exact (List.pairwise_cons.mp hpair).1 t hr
    have hne := runState_no_evict rate_limiter (t0 :: rest) [] (by simp) ?_
    · have hstate : runState rate_limiter [] (t0 :: rest) =
          allowedTimes rate_limiter [] (t0 :: rest) := by
        rw [hne, List.nil_append]
      have hD : (runState rate_limiter [] (t0 :: rest)).length ≤ 30 := by
        have := length_runState_le rate_limiter (t0 :: rest) [] (by simp)
        simpa [hm] using this
      have h0 : t0 ∈ runState rate_limiter [] (t0 :: rest) := by
        rw [hstate, allowedTimes]
        have hfirst : (is_allowed rate_limiter [] t0).1 = true := by
          rw [is_allowed_eq_allowed (by simp [kept, hm])]
        rw [hfirst]
        simp
      set S := runState rate_limiter [] (t0 :: rest) with hS
      have hklen : (kept rate_limiter S tnew).length < 30 := by
        have hlt : (S.filter
            (fun t => decide (tnew - rate_limiter.windowSeconds < t))).length <
            S.length := by
          rw [List.length_filter_lt_length_iff_exists]
          refine ⟨t0, h0, ?_⟩
          simp only [hw, decide_eq_true_eq, not_lt]
          linarith
        unfold kept
        omega
      rw [is_allowed_eq_allowed (by rw [hm]; exact hklen)]
    · apply List.pairwise_of_forall_mem_list
      intro a ha b hb
      have hb60 := hlt b hb
      have ha0 := hmem0 a ha
      rw [hw]
      linarith
  · -- (4) at most 30 allowed calls in any trailing 60-second interval
    intro times T hchain
    have hpair := (List.chain'_iff_pairwise).mp hchain
    have hsplit := (List.takeWhile_append_dropWhile
      (fun t : ℚ => decide (t ≤ T)) times).symm
    rw [show allowedTimes rate_limiter [] times =
        allowedTimes rate_limiter [] (times.takeWhile (fun t => decide (t ≤ T)) ++
          times.dropWhile (fun t => decide (t ≤ T))) from by rw [← hsplit]]
    rw [allowedTimes_append, List.countP_append]
    have h2 : (allowedTimes rate_limiter
        (runState rate_limiter [] (times.takeWhile (fun t => decide (t ≤ T))))
        (times.dropWhile (fun t => decide (t ≤ T)))).countP
        (fun t => decide (T - 60 < t ∧ t ≤ T)) = 0 := by
      rw [List.countP_eq_zero]
      intro a ha
      have hadrop : a ∈ times.dropWhile (fun t => decide (t ≤ T)) :=
        mem_allowedTimes _ _ _ _ ha
      have hTa : T < a := by
        have hdp : List.Pairwise (· ≤ ·)
            (times.dropWhile (fun t => decide (t ≤ T))) :=
          hpair.sublist (List.dropWhile_sublist _)
        cases hd : times.dropWhile (fun t => decide (t ≤ T)) with
        | nil => rw [hd] at hadrop; simp at hadrop
        | cons h t =>
            have hh : (fun t : ℚ => decide (t ≤ T)) h = false := by
              have := List.head?_dropWhile_not (fun t : ℚ => decide (t ≤ T)) times
              rw [hd] at this
              simpa using this
            have hhT : T < h := by simpa using hh
            rw [hd] at hadrop hdp
            rcases List.mem_cons.mp hadrop with rfl | hat
            · exact hhT
            · have := (List.pairwise_cons.mp hdp).1 a hat
              linarith
      simp only [decide_eq_true_eq, not_and, not_le]
      intro _
      exact hTa
    have h1 : (allowedTimes rate_limiter []
        (times.takeWhile (fun t => decide (t ≤ T)))).countP
        (fun t => decide (T - 60 < t ∧ t ≤ T)) ≤ 30 := by
      have hmono : (allowedTimes rate_limiter []
          (times.takeWhile (fun t => decide (t ≤ T)))).countP
          (fun t => decide (T - 60 < t ∧ t ≤ T)) ≤
          (allowedTimes rate_limiter []
          (times.takeWhile (fun t => decide (t ≤ T)))).countP
          (fun t => decide (T - 60 < t)) := by
        apply List.countP_mono_left
        intro x _ hx
        simp only [decide_eq_true_eq] at hx ⊢
        exact hx.1
      have hE := countP_runState rate_limiter (T - 60)
          (times.takeWhile (fun t => decide (t ≤ T))) [] ?_
      · have hD := length_runState_le rate_limiter
          (times.takeWhile (fun t => decide (t ≤ T))) [] (by simp)
        rw [hm] at hD
        have hle := @List.countP_le_length ℚ
          (fun t => decide (T - 60 < t))
          (runState rate_limiter [] (times.takeWhile (fun t => decide (t ≤ T))))
        simp only [List.countP_nil, Nat.zero_add] at hE
        omega
      · intro n hn
        have := List.mem_takeWhile_imp hn
        rw [hw]
        simp only [decide_eq_true_eq] at this
        linarith
    omega
  -- end of C1

/-- C1 witness: the theorem applied at concrete inputs — one call at
time 0 is allowed; 30 calls at time 0 followed by a 31st at time 0 deny
the 31st; after one call at time 0 a call at time 60 is allowed; the
empty call sequence admits at most 30 calls in the window ending at 0. -/
theorem C1_rate_limiter_sliding_window_witness :
    results rate_limiter [] [(0 : ℚ)] = List.replicate 1 true ∧
    (is_allowed rate_limiter
      (runState rate_limiter [] (List.replicate 30 (0 : ℚ))) 0).1 = false ∧
    (is_allowed rate_limiter (runState rate_limiter [] [(0 : ℚ)]) 60).1 = true ∧
    (allowedTimes rate_limiter [] ([] : List ℚ)).countP
      (fun t => decide ((0 : ℚ) - 60 < t ∧ t ≤ 0)) ≤ 30 := by
  refine ⟨?_, ?_, ?_, ?_⟩
  · exact C1_rate_limiter_sliding_window.1 [(0 : ℚ)] 0
      (List.chain'_singleton 0) (by norm_num) (by norm_num)
  · exact C1_rate_limiter_sliding_window.2.1 (List.replicate 30 (0 : ℚ)) 0 0
      (by
        rw [← List.replicate_succ']
        rw [List.chain'_iff_pairwise]
        simp)
      (by
        intro t ht
        rw [← List.replicate_succ'] at ht
        rw [List.eq_of_mem_replicate ht]
        norm_num)
      (by simp)
  · exact C1_rate_limiter_sliding_window.2.2.1 [(0 : ℚ)] 0 60 rfl
      (List.chain'_singleton 0) (by norm_num) (by norm_num)
  · exact C1_rate_limiter_sliding_window.2.2.2 [] 0 List.chain'_nil

/-- C10: a denied `is_allowed` call only evicts expired timestamps from
the caller's own window (it appends nothing), and a call for one client
id leaves every other client id's stored window unchanged. -/
theorem C10_denied_call_frame_effect :
    (∀ (cfg : RLConfig) (ts : List ℚ) (now : ℚ),
        (is_allowed cfg ts now).1 = false →
        (is_allowed cfg ts now).2 =
          ts.filter (fun t => decide (now - cfg.windowSeconds < t))) ∧
    (∀ (cfg : RLConfig) (st : RequestMap) (c c' : String) (now : ℚ),
        c' ≠ c → (is_allowed_map cfg st c now).2 c' = st c') := by
  constructor
  · intro cfg ts now h
    rw [is_allowed_denied_state cfg ts now h]
    rfl
  · intro cfg st c c' now hne
    unfold is_allowed_map
    exact Function.update_noteq hne _ _

/-- C10 witness: a full window of 30 zero timestamps denies a call at
time 0 and leaves exactly the filtered window behind; a call for client
"a" does not change client "b". -/
theorem C10_denied_call_frame_effect_witness :
    ((is_allowed rate_limiter (List.replicate 30 (0 : ℚ)) 0).2 =
      (List.replicate 30 (0 : ℚ)).filter
        (fun t => decide ((0 : ℚ) - rate_limiter.windowSeconds < t)) ∧
    (is_allowed_map rate_limiter (fun _ => []) ("a") 0).2 ("b") = []) := by
  constructor
  · exact C10_denied_call_frame_effect.1 rate_limiter (List.replicate 30 (0 : ℚ)) 0
      (by norm_num [is_allowed, kept, rate_limiter])
  · exact C10_denied_call_frame_effect.2 rate_limiter (fun _ => []) ("a") ("b") 0
      (by decide)

/-! ## Categorizer and transaction fetcher

Shared text machinery for `categorize_transaction` (both files build
`combined = desc_lower + ' ' + counter_lower` and test Python
`word in combined`, i.e. substring containment, on lower-cased text). -/

/-- Python `s.lower()`, as a character list. -/
def lowerStr (s : String) : List Char := s.toList.map Char.toLower

/-- Python `word in combined` (substring containment). -/
def hasSub (combined : List Char) (word : String) : Bool :=
  decide (word.toList <:+: combined)

/-- Python `any(word in combined for word in ws)`. -/
def anyWord (combined : List Char) (ws : List String) : Bool :=
  ws.any (hasSub combined)

/-- The upstream payment's `counterparty_alias` object: only its
`display_name` attribute is used (it may be `None`). -/
structure CounterpartyAlias where
  display_name : Option String
deriving Repr, DecidableEq

/-- The `combined` search string of `categorize_transaction`:
`desc_lower + ' ' + counter_lower`, where a missing (or falsy)
description or counterparty display name contributes the empty
string. -/
def combinedSearch (description : Option String)
    (counterparty : Option CounterpartyAlias) : List Char :=
  let desc_lower := match description with
    | some d => lowerStr d
    | none => []
  let counter_lower := match counterparty with
    | some a => match a.display_name with
      | some n => lowerStr n
      | none => []
    | none => []
  desc_lower ++ (' ' :: counter_lower)

/-- The upstream payment's `amount` object (`value` is the signed
decimal that `float(payment.amount.value)` parses). -/
structure Amount where
  value : ℚ
  currency : String
deriving Repr, DecidableEq

/-- An upstream payment as consumed by `get_account_transactions`.
`created` is the timestamp that
`datetime.fromisoformat(payment.created.replace('Z', '+00:00'))`
yields, as a point on the rational time line; `merchant_reference` is
`none` when the attribute is missing (`hasattr` false) or `None`. -/
structure Payment where
  id_ : ℤ
  created : ℚ
  amount : Amount
  description : Option String
  counterparty_alias : Option CounterpartyAlias
  merchant_reference : Option String
  type_ : String
deriving Repr, DecidableEq

/-- The transaction dict built by `get_account_transactions`. -/
structure Transaction where
  id : ℤ
  date : ℚ
  amount : ℚ
  currency : String
  description : Option String
  counterparty : Option String
  merchant : Option String
  category : String
  type : String
deriving Repr, DecidableEq

namespace ApiProxy

/-! `api_proxy.py` rule table (`categorize_transaction`, lines 433-448). -/

def groceries_words : List String :=
  ["albert heijn", "ah ", "jumbo", "lidl", "aldi", "plus", "supermarkt"]

def dining_words : List String :=
  ["restaurant", "cafe", "bar", "pizza", "burger", "starbucks"]

def transport_words : List String :=
  ["ns ", "train", "bus", "taxi", "uber", "parking", "shell", "benzine"]

def housing_words : List String :=
  ["huur", "rent", "hypotheek", "mortgage"]

def utilities_words : List String :=
  ["eneco", "energie", "gas", "water", "ziggo", "kpn", "telecom"]

def insurance_words : List String :=
  ["interpolis", "verzekering", "insurance", "zilveren kruis"]

def income_words : List String :=
  ["salaris", "salary", "loon", "wage"]

/-- All keywords of the `api_proxy.py` rule table, in rule order. -/
def rule_words : List String :=
  groceries_words ++ dining_words ++ transport_words ++ housing_words ++
    utilities_words ++ insurance_words ++ income_words

/-- `api_proxy.py` `categorize_transaction`: first matching rule of the
if/elif chain wins; note both the utilities rule and the housing rule
return `'Wonen'` in this file. -/
def categorize_transaction (description : Option String)
    (counterparty : Option CounterpartyAlias) : String :=
  let combined := combinedSearch description counterparty
  if anyWord combined groceries_words then "Boodschappen"
  else if anyWord combined dining_words then "Uitgaan"
  else if anyWord combined transport_words then "Vervoer"
  else if anyWord combined housing_words then "Wonen"
  else if anyWord combined utilities_words then "Wonen"
  else if anyWord combined insurance_words then "Verzekering"
  else if anyWord combined income_words then "Salaris"
  else "Overig"

/-- The transaction dict appended for each kept payment in
`api_proxy.py` `get_account_transactions`. -/
def payment_to_transaction (p : Payment) : Transaction where
  id := p.id_
  date := p.created
  amount := p.amount.value
  currency := p.amount.currency
  description := p.description
  counterparty := match p.counterparty_alias with
    | some a => a.display_name
    | none => some ("Unknown")
  merchant := p.merchant_reference
  category := categorize_transaction p.description p.counterparty_alias
  type := p.type_

/-- `api_proxy.py` `get_account_transactions`: iterate over the listed
payments, skip (`continue`) any payment with `created < cutoff_date`
where `cutoff_date = datetime.now() - timedelta(days=days)`, and append
the mapped transaction for the rest. -/
def get_account_transactions (now days : ℚ) : List Payment → List Transaction
  | [] => []
  | p :: rest =>
      if p.created < now - days then get_account_transactions now days rest
      else payment_to_transaction p :: get_account_transactions now days rest

end ApiProxy

namespace ApiProxySecure

/-! `api_proxy_secure.py` rule table (`categorize_transaction`,
lines 460-487). -/

def groceries_words : List String :=
  ["albert heijn", "ah ", "jumbo", "lidl", "aldi", "plus", "supermarkt"]

def dining_words : List String :=
  ["restaurant", "cafe", "bar", "pizza", "burger", "starbucks"]

def transport_words : List String :=
  ["ns ", "train", "bus", "taxi", "uber", "parking", "shell", "benzine"]

def housing_words : List String :=
  ["huur", "rent", "hypotheek", "mortgage"]

def utilities_words : List String :=
  ["eneco", "energie", "gas", "water", "ziggo", "kpn", "telecom"]

def shopping_words : List String :=
  ["bol.com", "coolblue", "mediamarkt", "zara", "h&m", "shop"]

def entertainment_words : List String :=
  ["netflix", "spotify", "youtube", "cinema", "pathé", "concert"]

def health_words : List String :=
  ["apotheek", "pharmacy", "dokter", "doctor", "tandarts", "dentist"]

def income_words : List String :=
  ["salaris", "salary", "loon", "wage"]

/-- All keywords of the `api_proxy_secure.py` rule table, in rule order. -/
def rule_words : List String :=
  groceries_words ++ dining_words ++ transport_words ++ housing_words ++
    utilities_words ++ shopping_words ++ entertainment_words ++
    health_words ++ income_words

/-- `api_proxy_secure.py` `categorize_transaction`. -/
def categorize_transaction (description : Option String)
    (counterparty : Option CounterpartyAlias) : String :=
  let combined := combinedSearch description counterparty
  if anyWord combined groceries_words then "Boodschappen"
  else if anyWord combined dining_words then "Horeca"
  else if anyWord combined transport_words then "Vervoer"
  else if anyWord combined housing_words then "Wonen"
  else if anyWord combined utilities_words then "Utilities"
  else if anyWord combined shopping_words then "Shopping"
  else if anyWord combined entertainment_words then "Entertainment"
  else if anyWord combined health_words then "Zorg"
  else if anyWord combined income_words then "Salaris"
  else "Overig"

/-- The transaction dict appended for each kept payment in
`api_proxy_secure.py` `get_account_transactions` (identical to the
other file except that it calls this file's categorizer). -/
def payment_to_transaction (p : Payment) : Transaction where
  id := p.id_
  date := p.created
  amount := p.amount.value
  currency := p.amount.currency
  description := p.description
  counterparty := match p.counterparty_alias with
    | some a => a.display_name
    | none => some ("Unknown")
  merchant := p.merchant_reference
  category := categorize_transaction p.description p.counterparty_alias
  type := p.type_

/-- `api_proxy_secure.py` `get_account_transactions`. -/
def get_account_transactions (now days : ℚ) : List Payment → List Transaction
  | [] => []
  | p :: rest =>
      if p.created < now - days then get_account_transactions now days rest
      else payment_to_transaction p :: get_account_transactions now days rest

end ApiProxySecure

/-- C2: for every account's payment list, every reference time and
every `days` value, `get_account_transactions` (in both files) returns
exactly the payments whose creation time is not strictly before
`cutoff = now - days`, each mapped to a Transaction record, in upstream
listing order. -/
theorem C2_per_account_fetch_filter_map :
    ∀ (now days : ℚ) (payments : List Payment),
      ApiProxy.get_account_transactions now days payments =
        (payments.filter (fun p => !decide (p.created < now - days))).map
          ApiProxy.payment_to_transaction ∧
      ApiProxySecure.get_account_transactions now days payments =
        (payments.filter (fun p => !decide (p.created < now - days))).map
          ApiProxySecure.payment_to_transaction := by
  intro now days payments
  induction payments with
  | nil =>
      exact ⟨rfl, rfl⟩
  | cons p rest ih =>
      constructor
      · rw [ApiProxy.get_account_transactions, List.filter_cons]
        by_cases h : p.created < now - days
        · rw [if_pos h]
          simp only [h]
          simp only [decide_True, Bool.not_true, Bool.false_eq_true, if_false]
          exact ih.1
        · rw [if_neg h]
          simp only [h]
          simp only [decide_False, Bool.not_false, if_true, List.map_cons]
          rw [ih.1]
      · rw [ApiProxySecure.get_account_transactions, List.filter_cons]
        by_cases h : p.created < now - days
        · rw [if_pos h]
          simp only [h]
          simp only [decide_True, Bool.not_true, Bool.false_eq_true, if_false]
          exact ih.2
        · rw [if_neg h]
          simp only [h]
          simp only [decide_False, Bool.not_false, if_true, List.map_cons]
          rw [ih.2]

/-- C3 counterexample: the search string "salaris jumbo" contains the
salary keyword `'salaris'`, yet both categorizers return
`'Boodschappen'`, not the income category `'Salaris'` — the groceries
rule is checked first, so income terms do not win regardless of other
keywords. -/
theorem C3_counterexample_salary_not_dominant :
    anyWord (combinedSearch (some ("salaris jumbo")) none)
      ["salaris", "salary", "loon", "wage"] = true ∧
    ApiProxy.categorize_transaction (some ("salaris jumbo")) none =
      ("Boodschappen") ∧
    ApiProxySecure.categorize_transaction (some ("salaris jumbo")) none =
      ("Boodschappen") ∧
    ("Boodschappen" : String) ≠ ("Salaris") := by
  refine ⟨by decide, by decide, by decide, by decide⟩

/-- C3 (amended): if the combined lower-cased search string contains a
salary keyword and matches no keyword of any earlier rule of the
respective file's table, `categorize_transaction` returns the income
category `'Salaris'`. -/
theorem C3_income_terms_categorization :
    ∀ (d : Option String) (c : Option CounterpartyAlias),
      anyWord (combinedSearch d c) ApiProxy.income_words = true →
      ((anyWord (combinedSearch d c) ApiProxy.groceries_words = false ∧
        anyWord (combinedSearch d c) ApiProxy.dining_words = false ∧
        anyWord (combinedSearch d c) ApiProxy.transport_words = false ∧
        anyWord (combinedSearch d c) ApiProxy.housing_words = false ∧
        anyWord (combinedSearch d c) ApiProxy.utilities_words = false ∧
        anyWord (combinedSearch d c) ApiProxy.insurance_words = false) →
        ApiProxy.categorize_transaction d c = ("Salaris")) ∧
      ((anyWord (combinedSearch d c) ApiProxySecure.groceries_words = false ∧
        anyWord (combinedSearch d c) ApiProxySecure.dining_words = false ∧
        anyWord (combinedSearch d c) ApiProxySecure.transport_words = false ∧
        anyWord (combinedSearch d c) ApiProxySecure.housing_words = false ∧
        anyWord (combinedSearch d c) ApiProxySecure.utilities_words = false ∧
        anyWord (combinedSearch d c) ApiProxySecure.shopping_words = false ∧
        anyWord (combinedSearch d c) ApiProxySecure.entertainment_words = false ∧
        anyWord (combinedSearch d c) ApiProxySecure.health_words = false) →
        ApiProxySecure.categorize_transaction d c = ("Salaris")) := by
  intro d c hsal
  constructor
  · rintro ⟨h1, h2, h3, h4, h5, h6⟩
    unfold ApiProxy.categorize_transaction
    simp only [h1, h2, h3, h4, h5, h6, hsal, Bool.false_eq_true, if_false, if_true]
  · rintro ⟨h1, h2, h3, h4, h5, h6, h7, h8⟩
    have hsal2 : anyWord (combinedSearch d c) ApiProxySecure.income_words = true := hsal
    unfold ApiProxySecure.categorize_transaction
    simp only [h1, h2, h3, h4, h5, h6, h7, h8, hsal2, Bool.false_eq_true, if_false,
      if_true]

/-- C3 witness: the description "salaris" alone matches only the income
rule and is categorized `'Salaris'` by both files. -/
theorem C3_income_terms_categorization_witness :
    ApiProxy.categorize_transaction (some ("salaris")) none = ("Salaris") ∧
    ApiProxySecure.categorize_transaction (some ("salaris")) none = ("Salaris") := by
  constructor
  · exact (C3_income_terms_categorization (some ("salaris")) none (by decide)).1
      (by refine ⟨by decide, by decide, by decide, by decide, by decide, by decide⟩)
  · exact (C3_income_terms_categorization (some ("salaris")) none (by decide)).2
      (by refine ⟨by decide, by decide, by decide, by decide, by decide, by decide,
        by decide, by decide⟩)

theorem anyWord_eq_false_of_all_not {combined : List Char} {ws all : List String}
    (hsub : ∀ w ∈ ws, w ∈ all)
    (h : all.all (fun w => !(hasSub combined w)) = true) :
    anyWord combined ws = false := by
  have h' := List.all_eq_true.mp h
  rw [anyWord, List.any_eq_false]
  intro w hw
  have hnot := h' w (hsub w hw)
  simp only [Bool.not_eq_true'] at hnot
  simp [hnot]

/-- C8 counterexample: on the no-keyword input "zzz" both categorizers
return the default label `'Overig'`, which is not the label `"Other"`
stated by the claim. -/
theorem C8_counterexample_default_label :
    ApiProxy.rule_words.all
      (fun w => !(hasSub (combinedSearch (some ("zzz")) none) w)) = true ∧
    ApiProxySecure.rule_words.all
      (fun w => !(hasSub (combinedSearch (some ("zzz")) none) w)) = true ∧
    ApiProxy.categorize_transaction (some ("zzz")) none = ("Overig") ∧
    ApiProxySecure.categorize_transaction (some ("zzz")) none = ("Overig") ∧
    ("Overig" : String) ≠ ("Other") := by
  refine ⟨by decide, by decide, by decide, by decide, by decide⟩

/-- C8 (amended): if the combined lower-cased search string contains no
keyword of any categorization rule, `categorize_transaction` returns
the default category, whose label is `'Overig'` (Dutch for "Other"). -/
theorem C8_no_rule_matches_default_category :
    ∀ (d : Option String) (c : Option CounterpartyAlias),
      (ApiProxy.rule_words.all
          (fun w => !(hasSub (combinedSearch d c) w)) = true →
        ApiProxy.categorize_transaction d c = ("Overig")) ∧
      (ApiProxySecure.rule_words.all
          (fun w => !(hasSub (combinedSearch d c) w)) = true →
        ApiProxySecure.categorize_transaction d c = ("Overig")) := by
  intro d c
  constructor
  · intro h
    have hg := @anyWord_eq_false_of_all_not _ ApiProxy.groceries_words _
      (by decide) h
    have hd := @anyWord_eq_false_of_all_not _ ApiProxy.dining_words _
      (by decide) h
    have ht := @anyWord_eq_false_of_all_not _ ApiProxy.transport_words _
      (by decide) h
    have hh := @anyWord_eq_false_of_all_not _ ApiProxy.housing_words _
      (by decide) h
    have hu := @anyWord_eq_false_of_all_not _ ApiProxy.utilities_words _
      (by decide) h
    have hi := @anyWord_eq_false_of_all_not _ ApiProxy.insurance_words _
      (by decide) h
    have hs := @anyWord_eq_false_of_all_not _ ApiProxy.income_words _
      (by decide) h
    unfold ApiProxy.categorize_transaction
    simp only [hg, hd, ht, hh, hu, hi, hs, Bool.false_eq_true, if_false]
  · intro h
    have hg := @anyWord_eq_false_of_all_not _ ApiProxySecure.groceries_words _
      (by decide) h
    have hd := @anyWord_eq_false_of_all_not _ ApiProxySecure.dining_words _
      (by decide) h
    have ht := @anyWord_eq_false_of_all_not _ ApiProxySecure.transport_words _
      (by decide) h
    have hh := @anyWord_eq_false_of_all_not _ ApiProxySecure.housing_words _
      (by decide) h
    have hu := @anyWord_eq_false_of_all_not _ ApiProxySecure.utilities_words _
      (by decide) h
    have hsh := @anyWord_eq_false_of_all_not _ ApiProxySecure.shopping_words _
      (by decide) h
    have he := @anyWord_eq_false_of_all_not _ ApiProxySecure.entertainment_words _
      (by decide) h
    have hz := @anyWord_eq_false_of_all_not _ ApiProxySecure.health_words _
      (by decide) h
    have hs := @anyWord_eq_false_of_all_not _ ApiProxySecure.income_words _
      (by decide) h
    unfold ApiProxySecure.categorize_transaction
    simp only [hg, hd, ht, hh, hu, hsh, he, hz, hs, Bool.false_eq_true, if_false]

/-- C8 witness: the input "qqq" matches no rule keyword and both
categorizers return `'Overig'`. -/
theorem C8_no_rule_matches_default_category_witness :
    ApiProxy.categorize_transaction (some ("qqq")) none = ("Overig") ∧
    ApiProxySecure.categorize_transaction (some ("qqq")) none = ("Overig") := by
  constructor
  · exact (C8_no_rule_matches_default_category (some ("qqq")) none).1 (by decide)
  · exact (C8_no_rule_matches_default_category (some ("qqq")) none).2 (by decide)

namespace ApiProxySecure

/-! `api_proxy_secure.py` `get_statistics` (lines 489-542): the
statistics computed from the gathered transaction list. -/

/-- One `category_totals[cat] = category_totals.get(cat, 0) + v` update
of the Python dict, preserving insertion order. -/
def dictAdd (m : List (String × ℚ)) (cat : String) (v : ℚ) :
    List (String × ℚ) :=
  match m with
  | [] => [(cat, v)]
  | (k, x) :: rest =>
      if k = cat then (k, x + v) :: rest else (k, x) :: dictAdd rest cat v

/-- The category-breakdown loop of `get_statistics`: for each
transaction with negative amount, add `abs(amount)` to its category's
total. -/
def category_totals (ts : List Transaction) : List (String × ℚ) :=
  ts.foldl
    (fun m t => if t.amount < 0 then dictAdd m t.category |t.amount| else m) []

/-- The `data` dict of the `get_statistics` response. -/
structure StatisticsData where
  period_days : ℤ
  total_transactions : Nat
  income : ℚ
  expenses : ℚ
  net_savings : ℚ
  savings_rate : ℚ
  categories : List (String × ℚ)
  avg_daily_expenses : ℚ
deriving Repr, DecidableEq

/-- The statistics computation of `get_statistics`: `income` is the sum
of positive amounts, `expenses` the absolute value of the sum of
negative amounts, `net_savings = income - expenses`,
`savings_rate = net_savings / income * 100` when `income > 0` else 0,
and `avg_daily_expenses = expenses / days` when `days > 0` else 0. -/
def get_statistics_data (days : ℤ) (all_transactions : List Transaction) :
    StatisticsData :=
  let income :=
    ((all_transactions.filter (fun t => decide (0 < t.amount))).map
      (fun t => t.amount)).sum
  let expenses :=
    |((all_transactions.filter (fun t => decide (t.amount < 0))).map
      (fun t => t.amount)).sum|
  let net_savings := income - expenses
  let savings_rate := if 0 < income then net_savings / income * 100 else 0
  { period_days := days
    total_transactions := all_transactions.length
    income := income
    expenses := expenses
    net_savings := net_savings
    savings_rate := savings_rate
    categories := category_totals all_transactions
    avg_daily_expenses := if 0 < days then expenses / (days : ℚ) else 0 }

end ApiProxySecure

/-- C6: for every transaction set and every `days` value, the computed
statistics satisfy `net_savings = income - expenses`;
`savings_rate = 0` when `income = 0` and
`net_savings / income * 100` when `income > 0`; and
`avg_daily_expenses = expenses / days` when `days > 0` and `0`
otherwise. -/
theorem C6_statistics_summary_identities :
    ∀ (days : ℤ) (ts : List Transaction),
      (ApiProxySecure.get_statistics_data days ts).net_savings =
        (ApiProxySecure.get_statistics_data days ts).income -
          (ApiProxySecure.get_statistics_data days ts).expenses ∧
      ((ApiProxySecure.get_statistics_data days ts).income = 0 →
        (ApiProxySecure.get_statistics_data days ts).savings_rate = 0) ∧
      (0 < (ApiProxySecure.get_statistics_data days ts).income →
        (ApiProxySecure.get_statistics_data days ts).savings_rate =
          (ApiProxySecure.get_statistics_data days ts).net_savings /
            (ApiProxySecure.get_statistics_data days ts).income * 100) ∧
      (0 < days →
        (ApiProxySecure.get_statistics_data days ts).avg_daily_expenses =
          (ApiProxySecure.get_statistics_data days ts).expenses / (days : ℚ)) ∧
      (¬ 0 < days →
        (ApiProxySecure.get_statistics_data days ts).avg_daily_expenses = 0) := by
  intro days ts
  unfold ApiProxySecure.get_statistics_data
  refine ⟨rfl, ?_, ?_, ?_, ?_⟩
  · intro h
    simp only at h ⊢
    rw [if_neg (by rw [h]; exact lt_irrefl 0)]
  · intro h
    simp only at h ⊢
    rw [if_pos h]
  · intro h
    simp only
    rw [if_pos h]
  · intro h
    simp only
    rw [if_neg h]

/-- C6 witness: the theorem applied to the empty transaction set with
`days = 1` (income 0, positive days) and `days = 0`. -/
theorem C6_statistics_summary_identities_witness :
    (ApiProxySecure.get_statistics_data 1 []).savings_rate = 0 ∧
    (ApiProxySecure.get_statistics_data 1 []).avg_daily_expenses =
      (ApiProxySecure.get_statistics_data 1 []).expenses / ((1 : ℤ) : ℚ) ∧
    (ApiProxySecure.get_statistics_data 0 []).avg_daily_expenses = 0 ∧
    (ApiProxySecure.get_statistics_data 1 []).net_savings =
      (ApiProxySecure.get_statistics_data 1 []).income -
        (ApiProxySecure.get_statistics_data 1 []).expenses := by
  refine ⟨?_, ?_, ?_, ?_⟩
  · exact (C6_statistics_summary_identities 1 []).2.1 (by rfl)
  · exact (C6_statistics_summary_identities 1 []).2.2.2.1 (by decide)
  · exact (C6_statistics_summary_identities 0 []).2.2.2.2 (by decide)
  · exact (C6_statistics_summary_identities 1 []).1

/-! ## Vaultwarden secret retrieval (`get_api_key_from_vaultwarden`,
identical logic in both files apart from logging) -/

/-- Outcome of an HTTP call made through `requests` with a timeout:
a `ConnectionError`, a `Timeout`, any other `RequestException`
(including the `HTTPError` that `raise_for_status()` raises on a
non-2xx response), or a parsed JSON body. -/
inductive ReqOutcome (α : Type) where
  | connectionError
  | timeout
  | requestError
  | ok (body : α)
deriving DecidableEq

/-- Parsed body of the token response; `none` for `access_token` models
a body without that key (the `KeyError` path) or otherwise malformed. -/
structure TokenBody where
  access_token : Option String
deriving DecidableEq

/-- One vault item: `item.get('name')`, `item.get('type')` and
`item.get('login', {})` with its `password` field. -/
structure VaultLogin where
  password : Option String
deriving DecidableEq

structure VaultItem where
  name : Option String
  type_ : Option ℤ
  login : Option VaultLogin
deriving DecidableEq

/-- Parsed body of the items response; `data` is `none` when the key is
missing (the code then uses `.get('data', [])`, i.e. `[]`). -/
structure ItemsBody where
  data : Option (List VaultItem)
deriving DecidableEq

/-- The configuration and network environment the function reads. -/
structure VaultEnv where
  use_vaultwarden : Bool
  bunq_api_key : String
  client_id : Option String
  client_secret : Option String
  item_name : String
  token_response : ReqOutcome TokenBody
  items_response : ReqOutcome ItemsBody
deriving DecidableEq

/-- Python falsiness of an optional string (`not client_id`): true when
the variable is unset or the empty string. -/
def falsyOpt (s : Option String) : Bool :=
  match s with
  | none => true
  | some v => v.isEmpty

/-- The item scan of step 3: first item whose name equals the
configured item name and whose type is 1 (login). -/
def vault_item_matches (item_name : String) (it : VaultItem) : Bool :=
  decide (it.name = some item_name) && decide (it.type_ = some (1 : ℤ))


/-- The item scan and password extraction (step 3 of the function):
the first matching item's `login.password`; `none` when the item is
missing or its password is empty or missing. -/
def vault_scan_items (item_name : String) (items : List VaultItem) :
    Option String :=
  match items.find? (vault_item_matches item_name) with
  | some item =>
      match (item.login.getD ⟨none⟩).password with
      | some pw => if pw.isEmpty then none else some pw
      | none => none
  | none => none

/-- Step 2 of the function: fetch the vault item list; any request
failure resolves to `none`, otherwise scan the `data` list. -/
def vault_fetch_items (item_name : String) (resp : ReqOutcome ItemsBody) :
    Option String :=
  match resp with
  | .ok itemsBody => vault_scan_items item_name (itemsBody.data.getD [])
  | _ => none

/-- Steps 1-3 of the vault path: the token exchange followed by the
item fetch; any token-request failure or missing `access_token` key
resolves to `none`. -/
def vault_fetch_token_and_items (env : VaultEnv) : Option String :=
  match env.token_response with
  | .ok tokenBody =>
      match tokenBody.access_token with
      | some _ => vault_fetch_items env.item_name env.items_response
      | none => none
  | _ => none

/-- `get_api_key_from_vaultwarden` (both files): resolve the Bunq API
key, returning `none` on every failure path.  With vault integration
disabled it returns the `BUNQ_API_KEY` environment value (possibly
empty). -/
def get_api_key_from_vaultwarden (env : VaultEnv) : Option String :=
  if env.use_vaultwarden = false then
    some env.bunq_api_key
  else if falsyOpt env.client_id || falsyOpt env.client_secret then
    none
  else
    vault_fetch_token_and_items env

theorem get_api_key_none_of_fetch_none {env : VaultEnv}
    (htrue : ¬ env.use_vaultwarden = false)
    (h : vault_fetch_token_and_items env = none) :
    get_api_key_from_vaultwarden env = none := by
  unfold get_api_key_from_vaultwarden
  rw [if_neg htrue]
  by_cases hcred : (falsyOpt env.client_id || falsyOpt env.client_secret) = true
  · rw [if_pos hcred]
  · rw [if_neg hcred, h]

theorem vault_fetch_none_of_items_none {env : VaultEnv}
    (h : vault_fetch_items env.item_name env.items_response = none) :
    vault_fetch_token_and_items env = none := by
  unfold vault_fetch_token_and_items
  cases env.token_response with
  | ok tb =>
      show (match tb.access_token with
        | some _ => vault_fetch_items env.item_name env.items_response
        | none => none) = none
      cases tb.access_token with
      | none => rfl
      | some t => exact h
  | connectionError => rfl
  | timeout => rfl
  | requestError => rfl

/-- C5: with vault integration enabled, every failure mode of secret
resolution — missing (or empty) client credentials, connection failure,
timeout, any other request error including a non-2xx response, a token
body without an access token, a failing items request, the item not
being found, or the item's password field empty or missing — makes
`get_api_key_from_vaultwarden` return `none`; the embedded function is
total, so no exception escapes the provider. -/
theorem C5_secret_resolution_failure_modes :
    ∀ env : VaultEnv, env.use_vaultwarden = true →
      ((falsyOpt env.client_id || falsyOpt env.client_secret) = true →
        get_api_key_from_vaultwarden env = none) ∧
      (env.token_response = .connectionError →
        get_api_key_from_vaultwarden env = none) ∧
      (env.token_response = .timeout →
        get_api_key_from_vaultwarden env = none) ∧
      (env.token_response = .requestError →
        get_api_key_from_vaultwarden env = none) ∧
      (∀ b, env.token_response = .ok b → b.access_token = none →
        get_api_key_from_vaultwarden env = none) ∧
      (env.items_response = .connectionError →
        get_api_key_from_vaultwarden env = none) ∧
      (env.items_response = .timeout →
        get_api_key_from_vaultwarden env = none) ∧
      (env.items_response = .requestError →
        get_api_key_from_vaultwarden env = none) ∧
      (∀ b, env.items_response = .ok b →
        (b.data.getD []).find? (vault_item_matches env.item_name) = none →
        get_api_key_from_vaultwarden env = none) ∧
      (∀ b item, env.items_response = .ok b →
        (b.data.getD []).find? (vault_item_matches env.item_name) = some item →
        falsyOpt (item.login.getD ⟨none⟩).password = true →
        get_api_key_from_vaultwarden env = none) := by
  intro env htrue
  have hnotfalse : ¬ env.use_vaultwarden = false := by rw [htrue]; simp
  refine ⟨?_, ?_, ?_, ?_, ?_, ?_, ?_, ?_, ?_, ?_⟩
  · intro h
    unfold get_api_key_from_vaultwarden
    rw [if_neg hnotfalse, if_pos h]
  · intro h
    apply get_api_key_none_of_fetch_none hnotfalse
    unfold vault_fetch_token_and_items
    rw [h]
  · intro h
    apply get_api_key_none_of_fetch_none hnotfalse
    unfold vault_fetch_token_and_items
    rw [h]
  · intro h
    apply get_api_key_none_of_fetch_none hnotfalse
    unfold vault_fetch_token_and_items
    rw [h]
  · intro b hb hacc
    apply get_api_key_none_of_fetch_none hnotfalse
    unfold vault_fetch_token_and_items
    rw [hb]
    show (match b.access_token with
      | some _ => vault_fetch_items env.item_name env.items_response
      | none => none) = none
    rw [hacc]
  · intro h
    apply get_api_key_none_of_fetch_none hnotfalse
    apply vault_fetch_none_of_items_none
    unfold vault_fetch_items
    rw [h]
  · intro h
    apply get_api_key_none_of_fetch_none hnotfalse
    apply vault_fetch_none_of_items_none
    unfold vault_fetch_items
    rw [h]
  · intro h
    apply get_api_key_none_of_fetch_none hnotfalse
    apply vault_fetch_none_of_items_none
    unfold vault_fetch_items
    rw [h]
  · intro b hb hfind
    apply get_api_key_none_of_fetch_none hnotfalse
    apply vault_fetch_none_of_items_none
    unfold vault_fetch_items
    rw [hb]
    show vault_scan_items env.item_name (b.data.getD []) = none
    unfold vault_scan_items
    rw [hfind]
  · intro b item hb hfind hpw
    apply get_api_key_none_of_fetch_none hnotfalse
    apply vault_fetch_none_of_items_none
    unfold vault_fetch_items
    rw [hb]
    show vault_scan_items env.item_name (b.data.getD []) = none
    unfold vault_scan_items
    rw [hfind]
    show (match (item.login.getD ⟨none⟩).password with
      | some pw => if pw.isEmpty then none else some pw
      | none => none) = none
    cases hp : (item.login.getD ⟨none⟩).password with
    | none => rfl
    | some pw =>
        rw [hp] at hpw
        have hpw2 : pw.isEmpty = true := hpw
        show (if pw.isEmpty = true then (none : Option String) else some pw) = none
        rw [if_pos hpw2]

/-- A vault environment with valid credentials whose requests fail. -/
def vaultEnvBase : VaultEnv where
  use_vaultwarden := true
  bunq_api_key := ""
  client_id := some ("user")
  client_secret := some ("secret")
  item_name := "Bunq API Key"
  token_response := ReqOutcome.requestError
  items_response := ReqOutcome.requestError

/-- An items body holding one matching login item with empty password. -/
def vaultItemsEmptyPw : ItemsBody where
  data := some [{ name := some ("Bunq API Key")
                  type_ := some 1
                  login := some { password := some ("") } }]

/-- C5 witness: the theorem applied at a concrete environment for each
failure mode, every application yielding `none`. -/
theorem C5_secret_resolution_failure_modes_witness :
    get_api_key_from_vaultwarden { vaultEnvBase with client_id := none } = none ∧
    get_api_key_from_vaultwarden
      { vaultEnvBase with token_response := ReqOutcome.connectionError } = none ∧
    get_api_key_from_vaultwarden
      { vaultEnvBase with token_response := ReqOutcome.timeout } = none ∧
    get_api_key_from_vaultwarden vaultEnvBase = none ∧
    get_api_key_from_vaultwarden
      { vaultEnvBase with token_response := ReqOutcome.ok ⟨none⟩ } = none ∧
    get_api_key_from_vaultwarden
      { vaultEnvBase with
        token_response := ReqOutcome.ok ⟨some ("tok")⟩
        items_response := ReqOutcome.connectionError } = none ∧
    get_api_key_from_vaultwarden
      { vaultEnvBase with
        token_response := ReqOutcome.ok ⟨some ("tok")⟩
        items_response := ReqOutcome.timeout } = none ∧
    get_api_key_from_vaultwarden
      { vaultEnvBase with
        token_response := ReqOutcome.ok ⟨some ("tok")⟩
        items_response := ReqOutcome.requestError } = none ∧
    get_api_key_from_vaultwarden
      { vaultEnvBase with
        token_response := ReqOutcome.ok ⟨some ("tok")⟩
        items_response := ReqOutcome.ok ⟨some []⟩ } = none ∧
    get_api_key_from_vaultwarden
      { vaultEnvBase with
        token_response := ReqOutcome.ok ⟨some ("tok")⟩
        items_response := ReqOutcome.ok vaultItemsEmptyPw } = none := by
  refine ⟨?_, ?_, ?_, ?_, ?_, ?_, ?_, ?_, ?_, ?_⟩
  · exact (C5_secret_resolution_failure_modes _ (by decide)).1 (by decide)
  · exact (C5_secret_resolution_failure_modes _ (by decide)).2.1 (by decide)
  · exact (C5_secret_resolution_failure_modes _ (by decide)).2.2.1 (by decide)
  · exact (C5_secret_resolution_failure_modes _ (by decide)).2.2.2.1 (by decide)
  · exact (C5_secret_resolution_failure_modes _ (by decide)).2.2.2.2.1 ⟨none⟩
      (by decide) (by decide)
  · exact (C5_secret_resolution_failure_modes _ (by decide)).2.2.2.2.2.1 (by decide)
  · exact (C5_secret_resolution_failure_modes _ (by decide)).2.2.2.2.2.2.1 (by decide)
  · exact (C5_secret_resolution_failure_modes _ (by decide)).2.2.2.2.2.2.2.1
      (by decide)
  · exact (C5_secret_resolution_failure_modes _ (by decide)).2.2.2.2.2.2.2.2.1
      ⟨some []⟩ (by decide) (by decide)
  · exact (C5_secret_resolution_failure_modes _ (by decide)).2.2.2.2.2.2.2.2.2
      vaultItemsEmptyPw
      { name := some ("Bunq API Key")
        type_ := some 1
        login := some { password := some ("") } }
      (by decide) (by decide) (by decide)

/-! ## Bunq session-context bootstrap (`init_bunq`, both files) -/

/-- The externally visible Bunq SDK calls `init_bunq` can make. -/
inductive BunqAction where
  | create
  | save
  | restore
  | load
deriving DecidableEq, Repr

/-- The world `init_bunq` interacts with: whether the persisted config
file (`config/bunq_production.conf`) exists, and whether each upstream
SDK call would succeed (an exception anywhere is caught by the
function's `except` block). `create_ok` covers
`ApiContext.create` + `save` as one step: if it fails, no file is
persisted. -/
structure BunqWorld where
  config_exists : Bool
  create_ok : Bool
  restore_ok : Bool
  load_ok : Bool
deriving DecidableEq, Repr

/-- Python truthiness of the `API_KEY` module global (`not API_KEY`):
false when the key is `None` or empty. -/
def truthy (s : Option String) : Bool := !(s.getD "").isEmpty

/-- `init_bunq` (both files, identical logic): with no API key, demo
mode (returns `False`, touches nothing); with a key, create + save a
new api context when the config file does not exist, otherwise restore
the persisted one; finally load it.  Returns the success flag, the new
world, and the trace of SDK calls attempted. -/
def init_bunq (api_key : Option String) (w : BunqWorld) :
    Bool × BunqWorld × List BunqAction :=
  if truthy api_key = false then (false, w, [])
  else if w.config_exists = false then
    if w.create_ok = false then (false, w, [BunqAction.create])
    else if w.load_ok = false then
      (false, { w with config_exists := true },
        [BunqAction.create, BunqAction.save, BunqAction.load])
    else
      (true, { w with config_exists := true },
        [BunqAction.create, BunqAction.save, BunqAction.load])
  else
    if w.restore_ok = false then (false, w, [BunqAction.restore])
    else if w.load_ok = false then
      (false, w, [BunqAction.restore, BunqAction.load])
    else (true, w, [BunqAction.restore, BunqAction.load])

/-- C7: when the persisted context file exists, `init_bunq` restores it
and never calls device registration (`ApiContext.create`); and over two
successive runs, where the second sees the world left by the first, if
the file is persisted after the first run then registration happens at
most once in the combined trace. -/
theorem C7_bootstrap_registers_at_most_once :
    ∀ (api_key : Option String) (w : BunqWorld),
      (w.config_exists = true → BunqAction.create ∉ (init_bunq api_key w).2.2) ∧
      ((init_bunq api_key w).2.1.config_exists = true →
        ((init_bunq api_key w).2.2 ++
          (init_bunq api_key (init_bunq api_key w).2.1).2.2).count
            BunqAction.create ≤ 1) := by
  intro api_key w
  obtain ⟨ce, cok, rok, lok⟩ := w
  constructor
  · intro h
    simp only at h
    subst h
    by_cases hk : truthy api_key = false <;>
      by_cases hr : rok = false <;>
        by_cases hl : lok = false <;>
          simp_all [init_bunq]
  · intro h
    by_cases hk : truthy api_key = false <;>
      by_cases hc : ce = false <;>
        by_cases hcr : cok = false <;>
          by_cases hr : rok = false <;>
            by_cases hl : lok = false <;>
              simp_all [init_bunq, List.count_cons, List.count_nil]

/-- C7 witness: with an existing config file everything succeeding, a
run performs no registration, and two successive runs starting from a
fresh world register exactly once. -/
theorem C7_bootstrap_registers_at_most_once_witness :
    (BunqAction.create ∉
      (init_bunq (some ("key")) ⟨true, true, true, true⟩).2.2) ∧
    (((init_bunq (some ("key")) ⟨false, true, true, true⟩).2.2 ++
      (init_bunq (some ("key"))
        (init_bunq (some ("key")) ⟨false, true, true, true⟩).2.1).2.2).count
          BunqAction.create ≤ 1) := by
  constructor
  · exact (C7_bootstrap_registers_at_most_once (some ("key"))
      ⟨true, true, true, true⟩).1 (by decide)
  · exact (C7_bootstrap_registers_at_most_once (some ("key"))
      ⟨false, true, true, true⟩).2 (by decide)

/-! ## Demo data generators -/

/-- `random.choice(l)` driven by one oracle draw `k`: the element at
index `k % len(l)` (always an element of a nonempty `l`). -/
def rchoice {α : Type} (l : List α) (dflt : α) (k : Nat) : α :=
  l.getD (k % l.length) dflt

/-- `random.randint(a, b)` (inclusive bounds) driven by one oracle draw
`k`: `a + k % (b - a + 1)`, always in `[a, b]` when `a ≤ b`. -/
def randint (a b : ℤ) (k : Nat) : ℤ := a + (k : ℤ) % (b - a + 1)

/-- The random draws consumed by one generator run, one stream per call
site, indexed by loop iteration. -/
structure DemoOracle where
  cat : Nat → Nat
  merch : Nat → Nat
  amount : Nat → Nat
  day : Nat → Nat

theorem randint_bounds (a b : ℤ) (k : Nat) (h : a ≤ b) :
    a ≤ randint a b k ∧ randint a b k ≤ b := by
  unfold randint
  have h1 : 0 ≤ (k : ℤ) % (b - a + 1) := Int.emod_nonneg _ (by omega)
  have h2 : (k : ℤ) % (b - a + 1) < b - a + 1 :=
    Int.emod_lt_of_pos _ (by omega)
  omega

theorem rchoice_mem {α : Type} (l : List α) (dflt : α) (k : Nat)
    (h : l ≠ []) : rchoice l dflt k ∈ l := by
  unfold rchoice
  have hlen : 0 < l.length := List.length_pos.mpr h
  have hk : k % l.length < l.length := Nat.mod_lt _ hlen
  rw [List.getD_eq_getElem?_getD, List.getElem?_eq_getElem hk]
  exact List.getElem_mem hk

/-- One synthetic transaction dict as built by the demo generators. -/
structure DemoTransaction where
  id : ℤ
  date : ℚ
  amount : ℤ
  category : String
  merchant : String
  description : String
deriving Repr, DecidableEq

/-- A JSON response envelope; an absent key is `none` (in particular
`source = none` models an envelope that carries no `source` field). -/
structure Envelope (α : Type) where
  success : Bool
  data : List α
  count : Nat
  source : Option String
  note : Option String

namespace ApiProxy

/-- The fixed category/merchant table of `generate_demo_transactions`
(`api_proxy.py` lines 378-384). -/
def demo_categories : List (String × List String) :=
  [("Boodschappen", ["Albert Heijn", "Jumbo", "Lidl"]),
   ("Wonen", ["Vattenfall", "Ziggo", "Huur"]),
   ("Vervoer", ["Shell", "NS", "Uber"]),
   ("Uitgaan", ["Restaurant De Goudvis", "Cinema", "Bar 123"]),
   ("Verzekering", ["Interpolis", "Zilveren Kruis"])]

/-- One expense entry of `generate_demo_transactions`: random category
from the table keys, random merchant from the category's list, amount
`-randint(10, 150)`, date `now - randint(0, days)` days. -/
def demo_expense (days : Nat) (now : ℚ) (o : DemoOracle) (i : Nat) :
    DemoTransaction where
  id := (i : ℤ)
  date := now - ((randint 0 (days : ℤ) (o.day i) : ℤ) : ℚ)
  amount := -(randint 10 150 (o.amount i))
  category := rchoice (demo_categories.map Prod.fst) "" (o.cat i)
  merchant := rchoice
    (((demo_categories.find?
      (fun p => p.1 == rchoice (demo_categories.map Prod.fst) "" (o.cat i))).map
        Prod.snd).getD []) "" (o.merch i)
  description := rchoice (demo_categories.map Prod.fst) "" (o.cat i) ++
    (" - ") ++ rchoice
      (((demo_categories.find?
        (fun p => p.1 == rchoice (demo_categories.map Prod.fst) "" (o.cat i))).map
          Prod.snd).getD []) "" (o.merch i)

/-- One monthly salary entry (`id = 9000 + i`, date `i * 30` days back,
amount `3500`, category `'Salaris'`). -/
def demo_salary (now : ℚ) (i : Nat) : DemoTransaction where
  id := 9000 + (i : ℤ)
  date := now - ((i : ℚ) * 30)
  amount := 3500
  category := "Salaris"
  merchant := "Werkgever B.V."
  description := "Monthly Salary"

/-- The `transactions` list of `generate_demo_transactions`:
`days * 2` expenses then one salary per `i in range(days // 30 + 1)`. -/
def generate_demo_transactions_data (days : Nat) (now : ℚ) (o : DemoOracle) :
    List DemoTransaction :=
  (List.range (days * 2)).map (demo_expense days now o) ++
    (List.range (days / 30 + 1)).map (demo_salary now)

/-- The full response envelope of `generate_demo_transactions`
(`api_proxy.py` lines 414-420): note `source: 'demo_data'`. -/
def generate_demo_transactions (days : Nat) (now : ℚ) (o : DemoOracle) :
    Envelope DemoTransaction where
  success := true
  data := generate_demo_transactions_data days now o
  count := (generate_demo_transactions_data days now o).length
  source := some ("demo_data")
  note := some ("Configure Bunq API for real transactions")

/-- The success envelope of the live `/api/transactions` path
(`api_proxy.py` lines 315-329): note `source: 'bunq_api'`. -/
def get_transactions_live_envelope (all_transactions : List Transaction) :
    Envelope Transaction where
  success := true
  data := all_transactions
  count := all_transactions.length
  source := some ("bunq_api")
  note := none

end ApiProxy

namespace ApiProxySecure

/-- The fixed category list of `get_demo_data` (`api_proxy_secure.py`
line 553). -/
def demo_categories_list : List String :=
  ["Boodschappen", "Horeca", "Vervoer", "Wonen", "Shopping", "Entertainment"]

/-- The fixed merchant table of `get_demo_data` (lines 554-561). -/
def demo_merchants : List (String × List String) :=
  [("Boodschappen", ["Albert Heijn", "Jumbo", "Lidl"]),
   ("Horeca", ["Starbucks", "Restaurant Plaza"]),
   ("Vervoer", ["NS", "Shell"]),
   ("Wonen", ["Verhuurder B.V."]),
   ("Shopping", ["Bol.com", "Coolblue"]),
   ("Entertainment", ["Netflix", "Spotify"])]

/-- One expense entry of `get_demo_data`: amount `-randint(10, 100)`
except a fixed `-850` for the housing category `'Wonen'`. -/
def demo_expense (days : Nat) (now : ℚ) (o : DemoOracle) (i : Nat) :
    DemoTransaction where
  id := (i : ℤ)
  date := now - ((randint 0 (days : ℤ) (o.day i) : ℤ) : ℚ)
  amount := if rchoice demo_categories_list "" (o.cat i) ≠ ("Wonen") then
      -(randint 10 100 (o.amount i))
    else -850
  category := rchoice demo_categories_list "" (o.cat i)
  merchant := rchoice
    (((demo_merchants.find?
      (fun p => p.1 == rchoice demo_categories_list "" (o.cat i))).map
        Prod.snd).getD []) "" (o.merch i)
  description := rchoice demo_categories_list "" (o.cat i) ++ (" - ") ++
    rchoice
      (((demo_merchants.find?
        (fun p => p.1 == rchoice demo_categories_list "" (o.cat i))).map
          Prod.snd).getD []) "" (o.merch i)

/-- One monthly salary entry of `get_demo_data`
(`id = len(transactions)` at append time, i.e. `days * 3 + i`). -/
def demo_salary (days : Nat) (now : ℚ) (i : Nat) : DemoTransaction where
  id := ((days * 3 + i : Nat) : ℤ)
  date := now - ((i : ℚ) * 30)
  amount := 2800
  category := "Salaris"
  merchant := "Werkgever B.V."
  description := "Salary"

/-- The `transactions` list of `get_demo_data`: `days * 3` expenses
then one salary per `i in range(days // 30)`. -/
def get_demo_data_transactions (days : Nat) (now : ℚ) (o : DemoOracle) :
    List DemoTransaction :=
  (List.range (days * 3)).map (demo_expense days now o) ++
    (List.range (days / 30)).map (demo_salary days now)

/-- The full response envelope of `get_demo_data`
(`api_proxy_secure.py` lines 590-595): it has `success`, `data`,
`count` and a `note`, but NO `source` field. -/
def get_demo_data (days : Nat) (now : ℚ) (o : DemoOracle) :
    Envelope DemoTransaction where
  success := true
  data := get_demo_data_transactions days now o
  count := (get_demo_data_transactions days now o).length
  source := none
  note := some ("This is demo data - no authentication required")

end ApiProxySecure

/-- The all-zeros random oracle. -/
def demoOracleZero : DemoOracle where
  cat := fun _ => 0
  merch := fun _ => 0
  amount := fun _ => 0
  day := fun _ => 0

/-- C4 counterexample: the demo envelope of `api_proxy_secure.py`
(`get_demo_data`) carries NO `source` field at all — only a free-text
`note` marks it as demo data — so not every demo-mode envelope carries
a `source` field distinct from the live-data value. -/
theorem C4_counterexample_secure_demo_missing_source :
    (ApiProxySecure.get_demo_data 30 0 demoOracleZero).source = none ∧
    (ApiProxySecure.get_demo_data 30 0 demoOracleZero).note =
      some ("This is demo data - no authentication required") := by
  exact ⟨rfl, rfl⟩

/-- C4 (amended): in `api_proxy.py` every demo envelope carries
`source: 'demo_data'`, distinct from the live value `'bunq_api'`; in
`api_proxy_secure.py` the demo envelope carries no `source` field at
all (only a demo `note`); in neither file is a demo response presented
with the live-data `source` value. -/
theorem C4_demo_source_marking :
    ∀ (days : Nat) (now : ℚ) (o : DemoOracle) (ts : List Transaction),
      (ApiProxy.generate_demo_transactions days now o).source =
        some ("demo_data") ∧
      (ApiProxy.get_transactions_live_envelope ts).source =
        some ("bunq_api") ∧
      (ApiProxy.generate_demo_transactions days now o).source ≠
        (ApiProxy.get_transactions_live_envelope ts).source ∧
      (ApiProxySecure.get_demo_data days now o).source = none ∧
      (ApiProxySecure.get_demo_data days now o).source ≠
        some ("bunq_api") := by
  intro days now o ts
  refine ⟨rfl, rfl, ?_, rfl, ?_⟩
  · rw [show (ApiProxy.generate_demo_transactions days now o).source =
        some ("demo_data") from rfl,
      show (ApiProxy.get_transactions_live_envelope ts).source =
        some ("bunq_api") from rfl]
    decide
  · rw [show (ApiProxySecure.get_demo_data days now o).source = none from rfl]
    decide

/-- C9 counterexample: both generators also emit salary transactions
whose category `'Salaris'` is not in the fixed demo category table, so
not every synthetic transaction's category is drawn from that table. -/
theorem C9_counterexample_salary_category_outside_table :
    ("Salaris" : String) ∈ (ApiProxy.generate_demo_transactions 30 0
        demoOracleZero).data.map (fun t => t.category) ∧
    ("Salaris" : String) ∉ ApiProxy.demo_categories.map Prod.fst ∧
    ("Salaris" : String) ∈ (ApiProxySecure.get_demo_data 30 0
        demoOracleZero).data.map (fun t => t.category) ∧
    ("Salaris" : String) ∉ ApiProxySecure.demo_categories_list := by
  refine ⟨by decide, by decide, by decide, by decide⟩

/-- C9 (amended): every synthetic transaction generated for `days = 30`
by either file has a date within the last 30 days (inclusive), and a
category drawn from the fixed demo category table except for the salary
entries, whose fixed category is `'Salaris'`. -/
theorem C9_demo_transactions_dates_and_categories :
    ∀ (now : ℚ) (o : DemoOracle),
      (∀ t ∈ (ApiProxy.generate_demo_transactions 30 now o).data,
        (now - 30 ≤ t.date ∧ t.date ≤ now) ∧
        (t.category ∈ ApiProxy.demo_categories.map Prod.fst ∨
          t.category = ("Salaris"))) ∧
      (∀ t ∈ (ApiProxySecure.get_demo_data 30 now o).data,
        (now - 30 ≤ t.date ∧ t.date ≤ now) ∧
        (t.category ∈ ApiProxySecure.demo_categories_list ∨
          t.category = ("Salaris"))) := by
  intro now o
  constructor
  · intro t ht
    have ht' : t ∈ (List.range (30 * 2)).map (ApiProxy.demo_expense 30 now o) ++
        (List.range (30 / 30 + 1)).map (ApiProxy.demo_salary now) := ht
    rcases List.mem_append.mp ht' with he | hs
    · obtain ⟨i, hi, rfl⟩ := List.mem_map.mp he
      have hb := randint_bounds 0 ((30 : Nat) : ℤ) (o.day i) (by norm_num)
      refine ⟨⟨?_, ?_⟩, Or.inl ?_⟩
      · show now - 30 ≤ now - ((randint 0 ((30 : Nat) : ℤ) (o.day i) : ℤ) : ℚ)
        have hc : ((randint 0 ((30 : Nat) : ℤ) (o.day i) : ℤ) : ℚ) ≤ 30 := by
          exact_mod_cast hb.2
        linarith
      · show now - ((randint 0 ((30 : Nat) : ℤ) (o.day i) : ℤ) : ℚ) ≤ now
        have hc : (0 : ℚ) ≤ ((randint 0 ((30 : Nat) : ℤ) (o.day i) : ℤ) : ℚ) := by
          exact_mod_cast hb.1
        linarith
      · exact rchoice_mem _ _ _ (by decide)
    · obtain ⟨i, hi, rfl⟩ := List.mem_map.mp hs
      rw [List.mem_range] at hi
      have hile : i ≤ 1 := by omega
      have hq : ((i : ℚ) * 30) ≤ 30 := by
        have : (i : ℚ) ≤ 1 := by exact_mod_cast hile
        linarith
      have hq0 : (0 : ℚ) ≤ (i : ℚ) * 30 := by positivity
      refine ⟨⟨?_, ?_⟩, Or.inr rfl⟩
      · show now - 30 ≤ now - ((i : ℚ) * 30)
        linarith
      · show now - ((i : ℚ) * 30) ≤ now
        linarith
  · intro t ht
    have ht' : t ∈ (List.range (30 * 3)).map
        (ApiProxySecure.demo_expense 30 now o) ++
        (List.range (30 / 30)).map (ApiProxySecure.demo_salary 30 now) := ht
    rcases List.mem_append.mp ht' with he | hs
    · obtain ⟨i, hi, rfl⟩ := List.mem_map.mp he
      have hb := randint_bounds 0 ((30 : Nat) : ℤ) (o.day i) (by norm_num)
      refine ⟨⟨?_, ?_⟩, Or.inl ?_⟩
      · show now - 30 ≤ now - ((randint 0 ((30 : Nat) : ℤ) (o.day i) : ℤ) : ℚ)
        have hc : ((randint 0 ((30 : Nat) : ℤ) (o.day i) : ℤ) : ℚ) ≤ 30 := by
          exact_mod_cast hb.2
        linarith
      · show now - ((randint 0 ((30 : Nat) : ℤ) (o.day i) : ℤ) : ℚ) ≤ now
        have hc : (0 : ℚ) ≤ ((randint 0 ((30 : Nat) : ℤ) (o.day i) : ℤ) : ℚ) := by
          exact_mod_cast hb.1
        linarith
      · exact rchoice_mem _ _ _ (by decide)
    · obtain ⟨i, hi, rfl⟩ := List.mem_map.mp hs
      rw [List.mem_range] at hi
      have hi0 : i = 0 := by omega
      subst hi0
      refine ⟨⟨?_, ?_⟩, Or.inr rfl⟩
      · show now - 30 ≤ now - ((0 : ℚ) * 30)
        norm_num
      · show now - ((0 : ℚ) * 30) ≤ now
        norm_num

/-- C9 witness: the amended theorem applied to the all-zeros oracle at
`now = 0`: the first generated transaction of `api_proxy.py` is dated
within the window with a table category. -/
theorem C9_demo_transactions_dates_and_categories_witness :
    ((0 : ℚ) - 30 ≤ (ApiProxy.demo_expense 30 0 demoOracleZero 0).date ∧
      (ApiProxy.demo_expense 30 0 demoOracleZero 0).date ≤ 0) ∧
    ((ApiProxy.demo_expense 30 0 demoOracleZero 0).category ∈
        ApiProxy.demo_categories.map Prod.fst ∨
      (ApiProxy.demo_expense 30 0 demoOracleZero 0).category = ("Salaris")) := by
  exact (C9_demo_transactions_dates_and_categories 0 demoOracleZero).1
    (ApiProxy.demo_expense 30 0 demoOracleZero 0)
    (by
      show ApiProxy.demo_expense 30 0 demoOracleZero 0 ∈
        (List.range (30 * 2)).map (ApiProxy.demo_expense 30 0 demoOracleZero) ++
          (List.range (30 / 30 + 1)).map (ApiProxy.demo_salary 0)
      apply List.mem_append.mpr
      exact Or.inl (List.mem_map.mpr ⟨0, by norm_num, rfl⟩))
